import Mathlib

/-!
Verification model of the query-normalization and filter-expression
compiler of `ga4_mcp_server.py`: the list normalizer, the recursive
`build_filter_expr` helper, the row flattener, and the `get_ga4_data`
orchestrator, together with theorems about the frozen specification
claims.
-/

set_option maxRecDepth 4000

/-- A JSON-like Python value, as produced by `json.loads` and passed
around by the MCP transport: strings, booleans, integers, `None`,
lists, and dicts (modelled as association lists with unique keys;
lookups take the first match, as Python dicts cannot hold duplicate
keys). -/
inductive JVal where
  | jstr : String → JVal
  | jbool : Bool → JVal
  | jnum : Int → JVal
  | jnull : JVal
  | jarr : List JVal → JVal
  | jobj : List (String × JVal) → JVal

/-- Dict lookup, first match wins (Python dict keys are unique). -/
def jlookup : List (String × JVal) → String → Option JVal
  | [], _ => none
  | (k0, v0) :: rest, k => if k0 = k then some v0 else jlookup rest k

/-- Python truthiness (`if x:`) for the modelled value shapes. -/
def py_truthy : JVal → Bool
  | .jnull => false
  | .jbool b => b
  | .jnum n => decide (n ≠ 0)
  | .jstr s => decide (s ≠ "")
  | .jarr xs => !xs.isEmpty
  | .jobj kvs => !kvs.isEmpty

/-- Whitespace characters stripped by Python `str.strip()` (ASCII
subset; the claims only involve ASCII data). -/
def is_py_space (c : Char) : Bool :=
  c = ' ' || c = '\t' || c = '\n' || c = '\r' || c = '\x0b' || c = '\x0c'

/-- Strip characters from the front while a predicate holds. -/
def drop_while_chars (p : Char → Bool) : List Char → List Char
  | [] => []
  | c :: cs => if p c then drop_while_chars p cs else c :: cs

/-- Python `str.strip()`: drop leading and trailing whitespace. -/
def py_strip (s : String) : String :=
  ⟨((drop_while_chars is_py_space s.data).reverse |> drop_while_chars is_py_space).reverse⟩

/-- Python `str.split(',')` on the character list: splits at every
comma; the empty string yields `[""]`. -/
def py_split_comma_chars : List Char → List (List Char)
  | [] => [[]]
  | c :: cs =>
    match py_split_comma_chars cs with
    | [] => [[]]
    | h :: t => if c = ',' then [] :: h :: t else (c :: h) :: t

/-- Python `str.split(',')`. -/
def py_split_comma (s : String) : List String :=
  (py_split_comma_chars s.data).map (fun cs => ⟨cs⟩)

/-- ASCII lower-casing, modelling Python `str.lower()` on the ASCII
error texts the orchestrator inspects. -/
def py_lower (s : String) : String := ⟨s.data.map Char.toLower⟩

/-- Whether `needle` is a prefix of `hay`. -/
def chars_pre : List Char → List Char → Bool
  | [], _ => true
  | _ :: _, [] => false
  | a :: as, b :: bs => a = b && chars_pre as bs

/-- Whether `needle` occurs somewhere inside `hay` (Python `in` on
strings). -/
def chars_contains (needle : List Char) : List Char → Bool
  | [] => chars_pre needle []
  | c :: cs => chars_pre needle (c :: cs) || chars_contains needle cs

/-- Python `pat in hay` substring test. -/
def str_contains (hay pat : String) : Bool := chars_contains pat.data hay.data

mutual
/-- Python `repr` of a JSON-like value (string quoting simplified to
always use single quotes; the claims never reach container rendering). -/
def pyRepr : JVal → String
  | .jstr s => "\x27" ++ s ++ "\x27"
  | .jnull => "None"
  | .jbool true => "True"
  | .jbool false => "False"
  | .jnum n => toString n
  | .jarr xs => "[" ++ pyReprItems xs ++ "]"
  | .jobj kvs => "\x7b" ++ pyReprPairs kvs ++ "\x7d"

/-- Comma-separated reprs of list items. -/
def pyReprItems : List JVal → String
  | [] => ""
  | [x] => pyRepr x
  | x :: xs => pyRepr x ++ ", " ++ pyReprItems xs

/-- Comma-separated reprs of dict pairs. -/
def pyReprPairs : List (String × JVal) → String
  | [] => ""
  | [(k, v)] => "\x27" ++ k ++ "\x27: " ++ pyRepr v
  | (k, v) :: kvs => "\x27" ++ k ++ "\x27: " ++ pyRepr v ++ ", " ++ pyReprPairs kvs
end

/-- Python `str()` of a JSON-like value: a string is returned as-is,
anything else renders like its repr (`str(None) = "None"`, etc.). -/
def pyStr : JVal → String
  | .jstr s => s
  | v => pyRepr v

/-- Python `repr` of a list of strings, as interpolated into error
messages (`f"... {available_ids}"`). -/
def pyReprStrList (xs : List String) : String :=
  "[" ++ String.intercalate ", " (xs.map (fun s => "\x27" ++ s ++ "\x27")) ++ "]"

/-- Modelled from the spec: `json.loads` (Python standard library, not
part of `src/`). §4.1 and §6 describe string inputs "parsed as a
JSON-style array literal", possibly yielding an array, a scalar
(`null`, booleans, numbers, strings), or failing. Numbers are modelled
as integers only (fractional/exponent forms and `NaN`/`Infinity` are
treated as parse failures); `\uXXXX` string escapes are not decoded.
Character-level helpers below follow the standard JSON grammar the
spec appeals to. Whitespace accepted between tokens. -/
def json_ws (c : Char) : Bool := c = ' ' || c = '\t' || c = '\n' || c = '\r'

/-- Skip leading JSON whitespace. -/
def skip_ws : List Char → List Char
  | [] => []
  | c :: cs => if json_ws c then skip_ws cs else c :: cs

/-- Parse the body of a JSON string after the opening quote; returns
the decoded characters and the input after the closing quote. -/
def parse_string_body : List Char → Option (List Char × List Char)
  | [] => none
  | c :: cs =>
    if c = '"' then some ([], cs)
    else if c = '\\' then
      match cs with
      | [] => none
      | e :: cs2 =>
        let dec : Option Char :=
          if e = '"' then some '"'
          else if e = '\\' then some '\\'
          else if e = '/' then some '/'
          else if e = 'n' then some '\n'
          else if e = 't' then some '\t'
          else if e = 'r' then some '\r'
          else if e = 'b' then some (Char.ofNat 8)
          else if e = 'f' then some (Char.ofNat 12)
          else none
        match dec with
        | none => none
        | some d =>
          match parse_string_body cs2 with
          | none => none
          | some (content, rest) => some (d :: content, rest)
    else
      match parse_string_body cs with
      | none => none
      | some (content, rest) => some (c :: content, rest)

/-- Longest leading run of decimal digits. -/
def take_digits : List Char → (List Char × List Char)
  | [] => ([], [])
  | c :: cs =>
    if c.isDigit then
      match take_digits cs with
      | (d, r) => (c :: d, r)
    else ([], c :: cs)

/-- Decimal digits to a natural number. -/
def digits_to_nat (ds : List Char) : Nat :=
  ds.foldl (fun n c => n * 10 + (c.toNat - 48)) 0

/-- Parse a JSON integer (optional minus; no leading zeros, per the
JSON grammar). Returns the value and the remaining input. -/
def parse_int : List Char → Option (Int × List Char)
  | [] => none
  | c :: cs =>
    let core : List Char → Option (Nat × List Char) := fun l =>
      match take_digits l with
      | ([], _) => none
      | (d :: ds, r) =>
        if d = '0' && !ds.isEmpty then none
        else some (digits_to_nat (d :: ds), r)
    if c = '-' then
      match core cs with
      | none => none
      | some (n, r) => some (-(n : Int), r)
    else
      match core (c :: cs) with
      | none => none
      | some (n, r) => some ((n : Int), r)

mutual
/-- Parse one JSON value (fuel-indexed recursive descent; the wrapper
passes fuel ample for any input, every recursive call follows at least
one consumed character). -/
def parse_jval : Nat → List Char → Option (JVal × List Char)
  | 0, _ => none
  | fuel + 1, cs =>
    match skip_ws cs with
    | [] => none
    | c :: rest =>
      if c = '"' then
        match parse_string_body rest with
        | none => none
        | some (content, r) => some (.jstr ⟨content⟩, r)
      else if c = '[' then
        match skip_ws rest with
        | ']' :: r => some (.jarr [], r)
        | r2 =>
          match parse_arr_items fuel r2 with
          | none => none
          | some (items, r) => some (.jarr items, r)
      else if c = '\x7b' then
        match skip_ws rest with
        | '\x7d' :: r => some (.jobj [], r)
        | r2 =>
          match parse_obj_items fuel r2 with
          | none => none
          | some (pairs, r) => some (.jobj pairs, r)
      else if chars_pre "null".data (c :: rest) then
        some (.jnull, (c :: rest).drop 4)
      else if chars_pre "true".data (c :: rest) then
        some (.jbool true, (c :: rest).drop 4)
      else if chars_pre "false".data (c :: rest) then
        some (.jbool false, (c :: rest).drop 5)
      else
        match parse_int (c :: rest) with
        | none => none
        | some (n, r) =>
          -- a following '.', 'e' or 'E' would make it a float, which
          -- this integer-only model treats as a parse failure
          match r with
          | d :: _ => if d = '.' || d = 'e' || d = 'E' then none else some (.jnum n, r)
          | [] => some (.jnum n, r)

/-- Parse `value (',' value)* ']'` after a '[' (non-empty case). -/
def parse_arr_items : Nat → List Char → Option (List JVal × List Char)
  | 0, _ => none
  | fuel + 1, cs =>
    match parse_jval fuel cs with
    | none => none
    | some (v, r) =>
      match skip_ws r with
      | ',' :: r2 =>
        match parse_arr_items fuel r2 with
        | none => none
        | some (items, r3) => some (v :: items, r3)
      | ']' :: r2 => some ([v], r2)
      | _ => none

/-- Parse `pair (',' pair)* '}'` after a '{' (non-empty case), where a
pair is `string ':' value`. -/
def parse_obj_items : Nat → List Char → Option (List (String × JVal) × List Char)
  | 0, _ => none
  | fuel + 1, cs =>
    match skip_ws cs with
    | '"' :: r =>
      match parse_string_body r with
      | none => none
      | some (key, r2) =>
        match skip_ws r2 with
        | ':' :: r3 =>
          match parse_jval fuel r3 with
          | none => none
          | some (v, r4) =>
            match skip_ws r4 with
            | ',' :: r5 =>
              match parse_obj_items fuel r5 with
              | none => none
              | some (pairs, r6) => some ((⟨key⟩, v) :: pairs, r6)
            | '\x7d' :: r5 => some ([(⟨key⟩, v)], r5)
            | _ => none
        | _ => none
    | _ => none
end

/-- Modelled from the spec: the `json.loads` entry point — parse one
JSON document and require only whitespace to remain (Python raises
"Extra data" otherwise, which the callers catch as failure). -/
def json_loads (s : String) : Option JVal :=
  match parse_jval (2 * s.data.length + 4) s.data with
  | none => none
  | some (v, rest) => if (skip_ws rest).isEmpty then some v else none

/-- The GA4 string-filter match types (`Filter.StringFilter.MatchType`). -/
inductive MatchType where
  | EXACT | BEGINS_WITH | ENDS_WITH | CONTAINS | FULL_REGEXP | PARTIAL_REGEXP
deriving DecidableEq

/-- The proto `Filter.StringFilter`. -/
structure StringFilter where
  value : String
  match_type : MatchType
  case_sensitive : Bool

/-- The proto `Filter.InListFilter`. -/
structure InListFilter where
  values : List String
  case_sensitive : Bool

/-- The matcher inside a `Filter` (the proto `one_filter` oneof). -/
inductive FilterMatcher where
  | string_filter : StringFilter → FilterMatcher
  | in_list_filter : InListFilter → FilterMatcher

/-- The proto `Filter`: a leaf predicate over one field. -/
structure GAFilter where
  field_name : String
  matcher : FilterMatcher

/-- The proto `FilterExpression`: the compiled filter tree.
`FilterExpressionList` is an unwrapped `List` here (the proto wrapper
holds only the `expressions` field). -/
inductive FilterExpression where
  | and_group : List FilterExpression → FilterExpression
  | or_group : List FilterExpression → FilterExpression
  | not_expression : FilterExpression → FilterExpression
  | filter : GAFilter → FilterExpression

/-- The `match_type_map` dict of `build_filter_expr`: textual match-type
names to enum values; `none` models a name absent from the dict. -/
def match_type_map : String → Option MatchType
  | "EXACT" => some .EXACT
  | "BEGINS_WITH" => some .BEGINS_WITH
  | "ENDS_WITH" => some .ENDS_WITH
  | "CONTAINS" => some .CONTAINS
  | "FULL_REGEXP" => some .FULL_REGEXP
  | "PARTIAL_REGEXP" => some .PARTIAL_REGEXP
  | _ => none

/-- Model of `match_type_map.get(sf.get('matchType', 'EXACT'), EXACT)`: an absent
key defaults to the name `'EXACT'`; an unrecognized (or non-string but
hashable) name falls back to the map default `EXACT`; an unhashable
key (list/dict) raises `TypeError`, which the enclosing handler turns
into a failed node (`none`). -/
def parse_match_type (sf : List (String × JVal)) : Option MatchType :=
  match jlookup sf "matchType" with
  | none => some .EXACT
  | some (.jstr s) => some ((match_type_map s).getD .EXACT)
  | some (.jarr _) => none
  | some (.jobj _) => none
  | some _ => some .EXACT

/-- Model of `d.get(k, default)` for a string-valued proto field: absent keys
take the default; a non-string value makes the proto constructor raise
`TypeError`, which the handler turns into a failed node. -/
def get_str_default (kvs : List (String × JVal)) (k : String) (dflt : String) :
    Option String :=
  match jlookup kvs k with
  | none => some dflt
  | some (.jstr s) => some s
  | some _ => none

/-- Model of `d.get(k, default)` for a bool-valued proto field; non-bool values
fail as above. -/
def get_bool_default (kvs : List (String × JVal)) (k : String) (dflt : Bool) :
    Option Bool :=
  match jlookup kvs k with
  | none => some dflt
  | some (.jbool b) => some b
  | some _ => none

/-- Model of `ilf.get('values', [])` for the repeated string proto field: absent
defaults to the empty list; a list with non-string elements, or a
non-list value, makes the proto constructor raise. -/
def get_str_list_default (kvs : List (String × JVal)) (k : String) :
    Option (List String) :=
  match jlookup kvs k with
  | none => some []
  | some (.jarr xs) =>
    xs.mapM (fun x => match x with | .jstr s => some s | _ => none)
  | some _ => none

/-- The `'stringFilter' in f` branch: `f['stringFilter']` must be a
dict (anything else has no `.get` and raises), then build
`Filter.StringFilter` with defaults `value=''`, `matchType=EXACT`,
`caseSensitive=False`. -/
def parse_string_filter (field : String) (sfv : JVal) : Option GAFilter :=
  match sfv with
  | .jobj sf => do
    let mt ← parse_match_type sf
    let v ← get_str_default sf "value" ""
    let cs ← get_bool_default sf "caseSensitive" false
    some { field_name := field,
           matcher := .string_filter { value := v, match_type := mt, case_sensitive := cs } }
  | _ => none

/-- The `'inListFilter' in f` branch: build `Filter.InListFilter` with
defaults `values=[]`, `caseSensitive=False`. -/
def parse_in_list_filter (field : String) (ilv : JVal) : Option GAFilter :=
  match ilv with
  | .jobj ilf => do
    let vs ← get_str_list_default ilf "values"
    let cs ← get_bool_default ilf "caseSensitive" false
    some { field_name := field,
           matcher := .in_list_filter { values := vs, case_sensitive := cs } }
  | _ => none

/-- The `'filter' in expr` branch of `build_filter_expr`: the value
must be a dict (else `f.get` raises); `fieldName` must be present and
truthy, and a member of the dimension catalog — a non-string field
name is never a member of the string set (and an unhashable one raises),
so only catalog strings pass. `stringFilter` is probed before
`inListFilter`; with neither key the node falls through to the
unrecognized-structure failure. -/
def parse_leaf (cat : List String) (fv : JVal) : Option FilterExpression :=
  match fv with
  | .jobj f =>
    match jlookup f "fieldName" with
    | some fieldv =>
      if py_truthy fieldv then
        match fieldv with
        | .jstr field =>
          if cat.contains field then
            match jlookup f "stringFilter" with
            | some sfv => (parse_string_filter field sfv).map .filter
            | none =>
              match jlookup f "inListFilter" with
              | some ilv => (parse_in_list_filter field ilv).map .filter
              | none => none
          else none
        | _ => none
      else none
    | none => none
  | _ => none

/-- Model of `expr['andGroup']['expressions']` (same for `orGroup`) and the
subsequent `for e in ...` iteration: the group value must be a dict
holding the key (anything else raises `KeyError`/`TypeError`); a list
value iterates over its elements; iterating a string yields its
characters and iterating a dict yields its keys — both are strings,
which never compile to a filter node, so only the empty string/dict
produce (zero) children and any non-empty one fails the whole node,
folded below into `some []` / `none`; all other value shapes fail to
iterate. -/
def group_expressions (g : JVal) : Option (List JVal) :=
  match g with
  | .jobj gkvs =>
    match jlookup gkvs "expressions" with
    | some (.jarr xs) => some xs
    | some (.jstr s) => if s = "" then some [] else none
    | some (.jobj kvs2) => if kvs2.isEmpty then some [] else none
    | some _ => none
    | none => none
  | _ => none

theorem jlookup_sizeOf {kvs : List (String × JVal)} {k : String} {v : JVal}
    (h : jlookup kvs k = some v) : sizeOf v < sizeOf kvs := by
  induction kvs with
  | nil => simp [jlookup] at h
  | cons kv rest ih =>
    obtain ⟨k0, v0⟩ := kv
    simp only [jlookup] at h
    by_cases hk : k0 = k
    · simp [hk] at h
      subst h
      simp
      omega
    · simp [hk] at h
      have := ih h
      simp
      omega

theorem mem_sizeOf_lt {x : JVal} {xs : List JVal} (h : x ∈ xs) :
    sizeOf x < sizeOf xs := by
  induction xs with
  | nil => cases h
  | cons y ys ih =>
    rcases List.mem_cons.mp h with h1 | h1
    · subst h1
      simp
      omega
    · have := ih h1
      simp
      omega

theorem group_expressions_sizeOf {g : JVal} {xs : List JVal}
    (h : group_expressions g = some xs) : sizeOf xs < sizeOf g := by
  match g with
  | .jstr _ | .jbool _ | .jnum _ | .jnull | .jarr _ =>
    simp [group_expressions] at h
  | .jobj gkvs =>
    simp only [group_expressions] at h
    have hpos : 0 < sizeOf gkvs := by
      cases gkvs with
      | nil =>
        simp [jlookup] at h
      | cons a l => simp
    match hl : jlookup gkvs "expressions" with
    | none => rw [hl] at h; simp at h
    | some (.jbool _) | some (.jnum _) | some (.jnull) =>
      rw [hl] at h; simp at h
    | some (.jarr ys) =>
      rw [hl] at h
      simp at h
      subst h
      have := jlookup_sizeOf hl
      simp at this ⊢
      omega
    | some (.jstr s) =>
      rw [hl] at h
      by_cases hs : s = "" <;> simp [hs] at h
      subst h
      simp
      omega
    | some (.jobj kvs2) =>
      rw [hl] at h
      by_cases hs : kvs2.isEmpty <;> simp [hs] at h
      subst h
      simp
      omega

mutual
/-- The function `build_filter_expr` (lines 811-888): recursively compile a filter
specification into a `FilterExpression`, or fail with `None`. A
non-dict node never matches any branch (the `in` probes and
indexing raise, or all probes are false) and fails. Dispatch order:
`andGroup`, `orGroup`, `notExpression`, `filter`; within the chosen
branch any raised error is caught by the surrounding handler and
returned as `None` for the whole node. -/
def build_filter_expr (cat : List String) (expr : JVal) : Option FilterExpression :=
  match expr with
  | .jobj kvs =>
    match h1 : jlookup kvs "andGroup" with
    | some g =>
      match h2 : group_expressions g with
      | some xs => (build_expr_list cat xs).map .and_group
      | none => none
    | none =>
      match h3 : jlookup kvs "orGroup" with
      | some g =>
        match h4 : group_expressions g with
        | some xs => (build_expr_list cat xs).map .or_group
        | none => none
      | none =>
        match h5 : jlookup kvs "notExpression" with
        | some sub => (build_filter_expr cat sub).map .not_expression
        | none =>
          match jlookup kvs "filter" with
          | some fv => parse_leaf cat fv
          | none => none
  | _ => none
termination_by sizeOf expr
decreasing_by
  · have ha := jlookup_sizeOf h1
    have hb := group_expressions_sizeOf h2
    simp only [JVal.jobj.sizeOf_spec]
    omega
  · have ha := jlookup_sizeOf h3
    have hb := group_expressions_sizeOf h4
    simp only [JVal.jobj.sizeOf_spec]
    omega
  · have ha := jlookup_sizeOf h5
    simp only [JVal.jobj.sizeOf_spec]
    omega

/-- The `for e in expressions` loop body of the group branches: compile
each child in order, aborting the whole list at the first failing
child. -/
def build_expr_list (cat : List String) (xs : List JVal) : Option (List FilterExpression) :=
  match xs with
  | [] => some []
  | e :: es =>
    match build_filter_expr cat e with
    | none => none
    | some fe =>
      match build_expr_list cat es with
      | none => none
      | some fes => some (fe :: fes)
termination_by sizeOf xs
decreasing_by
  · simp only [List.cons.sizeOf_spec]
    omega
  · simp only [List.cons.sizeOf_spec]
    omega
end
/-- The table `GA4_DIMENSIONS` (lines 291-480): category to field-name mapping.
Only the key sets feed validation (`valid_dimensions` is the union of
`cat.keys()`), so the description strings are omitted. -/
def GA4_DIMENSIONS : List (String × List String) := [
  ("time", ["date", "dateHour", "dateHourMinute", "day", "dayOfWeek", "hour", "minute", "month", "week", "year", "nthDay", "nthHour", "nthMinute", "nthMonth", "nthWeek", "nthYear"]),
  ("geography", ["city", "cityId", "country", "countryId", "region"]),
  ("technology", ["browser", "deviceCategory", "deviceModel", "operatingSystem", "operatingSystemVersion", "platform", "platformDeviceCategory", "screenResolution"]),
  ("traffic_source", ["campaignId", "campaignName", "defaultChannelGroup", "medium", "source", "sourceMedium", "sourcePlatform", "sessionCampaignId", "sessionCampaignName", "sessionDefaultChannelGroup", "sessionMedium", "sessionSource", "sessionSourceMedium", "sessionSourcePlatform"]),
  ("first_user_attribution", ["firstUserCampaignId", "firstUserCampaignName", "firstUserDefaultChannelGroup", "firstUserMedium", "firstUserSource", "firstUserSourceMedium", "firstUserSourcePlatform"]),
  ("content", ["contentGroup", "contentId", "contentType", "fullPageUrl", "landingPage", "pageLocation", "pagePath", "pagePathPlusQueryString", "pageReferrer", "pageTitle", "unifiedScreenClass", "unifiedScreenName"]),
  ("events", ["eventName", "isConversionEvent", "method"]),
  ("ecommerce", ["itemBrand", "itemCategory", "itemCategory2", "itemCategory3", "itemCategory4", "itemCategory5", "itemId", "itemListId", "itemListName", "itemName", "itemPromotionCreativeName", "itemPromotionId", "itemPromotionName", "orderCoupon", "shippingTier", "transactionId"]),
  ("user_demographics", ["newVsReturning", "signedInWithUserId", "userAgeBracket", "userGender", "language", "languageCode"]),
  ("google_ads", ["googleAdsAdGroupId", "googleAdsAdGroupName", "googleAdsAdNetworkType", "googleAdsCampaignId", "googleAdsCampaignName", "googleAdsCampaignType", "googleAdsCreativeId", "googleAdsKeyword", "googleAdsQuery", "firstUserGoogleAdsAdGroupId", "firstUserGoogleAdsAdGroupName", "firstUserGoogleAdsCampaignId", "firstUserGoogleAdsCampaignName", "firstUserGoogleAdsCampaignType", "firstUserGoogleAdsCreativeId", "firstUserGoogleAdsKeyword", "firstUserGoogleAdsNetworkType", "firstUserGoogleAdsQuery", "sessionGoogleAdsAdGroupId", "sessionGoogleAdsAdGroupName", "sessionGoogleAdsCampaignId", "sessionGoogleAdsCampaignName", "sessionGoogleAdsCampaignType", "sessionGoogleAdsCreativeId", "sessionGoogleAdsKeyword", "sessionGoogleAdsNetworkType", "sessionGoogleAdsQuery"]),
  ("manual_campaigns", ["manualAdContent", "manualTerm", "firstUserManualAdContent", "firstUserManualTerm", "sessionManualAdContent", "sessionManualTerm"]),
  ("app_specific", ["appVersion", "streamId", "streamName"]),
  ("cohort_analysis", ["cohort", "cohortNthDay", "cohortNthMonth", "cohortNthWeek"]),
  ("audiences", ["audienceId", "audienceName", "brandingInterest"]),
  ("enhanced_measurement", ["fileExtension", "fileName", "linkClasses", "linkDomain", "linkId", "linkText", "linkUrl", "outbound", "percentScrolled", "searchTerm", "videoProvider", "videoTitle", "videoUrl", "visible"]),
  ("gaming", ["achievementId", "character", "groupId", "virtualCurrencyName"]),
  ("advertising", ["adFormat", "adSourceName", "adUnitName"]),
  ("testing", ["testDataFilterName"])
]

/-- The set `valid_dimensions` (lines 794-797): the union of the catalog key
sets; the Python `set` is modelled as a list since only membership is
used. -/
def ga4_valid_dimensions : List String :=
  GA4_DIMENSIONS.foldr (fun p acc => p.2 ++ acc) []

/-- A dimensions/metrics argument as delivered by the MCP client:
either already a sequence (of arbitrary JSON-like elements, each later
coerced with `str()`), or a single string. -/
inductive FieldArg where
  | ofList : List JVal → FieldArg
  | ofStr : String → FieldArg

/-- Lines 760-768 (and 771-779 for metrics): if the argument is a
string, try `json.loads`; a successful non-list parse is wrapped as
`[str(parsed)]`; a parse failure falls back to
`[d.strip() for d in s.split(',')]`. -/
def parse_field_arg : FieldArg → List JVal
  | .ofList xs => xs
  | .ofStr s =>
    match json_loads s with
    | some (.jarr xs) => xs
    | some v => [.jstr (pyStr v)]
    | none => (py_split_comma s).map (fun d => .jstr (py_strip d))

/-- Line 769 / 780: `[str(d).strip() for d in parsed if str(d).strip()]`. -/
def normalize_fields (arg : FieldArg) : List String :=
  ((parse_field_arg arg).map (fun d => py_strip (pyStr d))).filter (fun s => !(s = ""))

/-- One row of a flattened report: field name to value-or-null, in
Python dict insertion order. -/
abbrev PyDict := List (String × Option String)

/-- Python dict assignment `d[k] = v`: overwrite in place if the key
exists, else append. -/
def dict_set (d : PyDict) (k : String) (v : Option String) : PyDict :=
  if d.any (fun kv => kv.1 = k) then
    d.map (fun kv => if kv.1 = k then (k, v) else kv)
  else d ++ [(k, v)]

/-- Python dict read: `some x` when the key is present with value `x`
(where `x = none` models an explicit `None`). -/
def dict_get (d : PyDict) (k : String) : Option (Option String) :=
  (d.find? (fun kv => kv.1 = k)).map (fun kv => kv.2)

/-- One backend response row: parallel dimension and metric value
lists (`row.dimension_values[i].value` is modelled as the string at
index `i`). -/
structure ReportRowData where
  dimension_values : List String
  metric_values : List String

/-- The backend tabular response: parallel header name lists and rows. -/
structure RunReportResponse where
  dimension_headers : List String
  metric_headers : List String
  rows : List ReportRowData

/-- Lines 904-914: build one flat row dict — dimension headers first,
then metric headers; `header[i]` gets `value[i]` when `i` is in bounds
of the row's value list and `None` otherwise. The loop index advances
with the header list while the value list is consumed in step, so
`values.head?` is exactly the bounds-checked `values[i]`. -/
def assign_values (headers : List String) (values : List String) (d : PyDict) : PyDict :=
  match headers with
  | [] => d
  | h :: hs => assign_values hs values.tail (dict_set d h values.head?)

/-- Lines 903-915, body for one row: dimensions are written first,
then metrics, into one shared key space. -/
def flatten_row (dimension_headers metric_headers : List String)
    (row : ReportRowData) : PyDict :=
  assign_values metric_headers row.metric_values
    (assign_values dimension_headers row.dimension_values [])

/-- Lines 902-915: one output dict per input row, appended in input
order. -/
def flatten_response (resp : RunReportResponse) : List PyDict :=
  resp.rows.map (flatten_row resp.dimension_headers resp.metric_headers)

/-- The assembled `RunReportRequest` (lines 894-900). -/
structure RunReportRequest where
  property : String
  dimensions : List String
  metrics : List String
  date_ranges : List (String × String)
  dimension_filter : Option FilterExpression

/-- The external backend client: `client.run_report` either returns a
response or raises, modelled as `Except` with the exception text (the
`details` attribute of rich exceptions is not modelled). -/
structure Backend where
  run_report : RunReportRequest → Except String RunReportResponse

/-- The external `property_manager` collaborator:
`validate_property_id` plus `list_properties`, the latter returning
either an error dict (left) or a list of property infos, modelled by
their `id` fields, which is all the orchestrator reads. -/
structure PropertyManager where
  valid : String → Bool
  props : Sum String (List String)

/-- The value returned to the caller: a list of flat row dicts, or an
`{"error": ...}` dict. -/
inductive GAResult where
  | rows : List PyDict → GAResult
  | error : String → GAResult

/-- Lines 747-758: when a property manager is installed and rejects
the id, produce the error message (listing the known ids when
`list_properties` returned a non-empty list). `none` means the check
passed. -/
def prop_check (pm : Option PropertyManager) (property_id : String) : Option String :=
  match pm with
  | none => none
  | some m =>
    if m.valid property_id then none
    else
      match m.props with
      | .inr ids =>
        if !ids.isEmpty then
          some ("Invalid property ID: " ++ property_id ++ ". Available property IDs: "
                ++ pyReprStrList ids)
        else
          some ("Invalid property ID: " ++ property_id
                ++ ". Use list_ga4_properties tool to get available property IDs.")
      | .inl _ =>
        some ("Invalid property ID: " ++ property_id
              ++ ". Use list_ga4_properties tool to get available property IDs.")

/-- Lines 917-932, the `except` handler for a failed backend call:
prefix the exception text, and replace it with a property hint when
the lowered text matches a known pattern. Every path that reaches the
backend call has a non-empty `property_id`, so the `property_id is
None` sub-branch is dead and not modelled; backend errors carry no
`details` attribute in this model. -/
def error_reply (property_id : String) (e : String) : String :=
  let error_str := py_lower e
  if str_contains error_str "property not found"
     || str_contains error_str "invalid resource name" then
    "Property ID \x27" ++ property_id
      ++ "\x27 not found or not accessible. Use list_ga4_properties tool to get available property IDs."
  else
    "Error fetching GA4 data: " ++ e

/-- The tool `get_ga4_data` (lines 716-932): validate the property id, normalize
the dimension and metric lists, compile the optional filter, delegate
to the backend, and flatten the response; every failure returns an
error value. `dimension_filter` is `none` when omitted; a supplied
falsy value (`None`, `''`, `{}`, ...) skips filter processing entirely
(`if dimension_filter:`); a string value goes through `json.loads`, a
dict is used directly, anything else is rejected. -/
def get_ga4_data (pm : Option PropertyManager) (backend : Backend)
    (property_id : String) (dimensions metrics : FieldArg)
    (date_range_start date_range_end : String)
    (dimension_filter : Option JVal) : GAResult :=
  if property_id = "" then
    .error "property_id is required. Use list_ga4_properties tool to get available property IDs."
  else
    match prop_check pm property_id with
    | some e => .error e
    | none =>
      let parsed_dimensions := normalize_fields dimensions
      let parsed_metrics := normalize_fields metrics
      if parsed_dimensions.isEmpty then
        .error "Dimensions list cannot be empty after parsing."
      else if parsed_metrics.isEmpty then
        .error "Metrics list cannot be empty after parsing."
      else
        let filter_result : Except String (Option FilterExpression) :=
          match dimension_filter with
          | none => .ok none
          | some dv =>
            if py_truthy dv then
              match dv with
              | .jstr s =>
                match json_loads s with
                | none =>
                  -- the exception text interpolated after the colon is
                  -- not modelled
                  .error "Failed to parse dimension_filter JSON: "
                | some filter_dict =>
                  match build_filter_expr ga4_valid_dimensions filter_dict with
                  | none => .error "Invalid or unsupported dimension_filter structure, or invalid dimension name."
                  | some fe => .ok (some fe)
              | .jobj _ =>
                match build_filter_expr ga4_valid_dimensions dv with
                | none => .error "Invalid or unsupported dimension_filter structure, or invalid dimension name."
                | some fe => .ok (some fe)
              | _ => .error "dimension_filter must be a JSON string or dict."
            else .ok none
        match filter_result with
        | .error e => .error e
        | .ok filter_expression =>
          let request : RunReportRequest :=
            { property := "properties/" ++ property_id,
              dimensions := parsed_dimensions,
              metrics := parsed_metrics,
              date_ranges := [(date_range_start, date_range_end)],
              -- `filter_expression if filter_expression else None`: the
              -- compiled proto messages always carry one populated oneof
              -- field, so the truthiness guard is the identity here
              dimension_filter := filter_expression }
          match backend.run_report request with
          | .ok response => .rows (flatten_response response)
          | .error e => .error (error_reply property_id e)

theorem find?_map_set_self (d : PyDict) (k : String) (v : Option String)
    (h : d.any (fun kv => kv.1 = k) = true) :
    (d.map (fun kv => if kv.1 = k then (k, v) else kv)).find? (fun kv => kv.1 = k)
      = some (k, v) := by
  induction d with
  | nil => simp at h
  | cons a rest ih =>
    by_cases ha : a.1 = k
    · simp [List.find?, ha]
    · have h2 : rest.any (fun kv => kv.1 = k) = true := by
        simp only [List.any_cons] at h
        simpa [ha] using h
      simp only [List.map_cons, if_neg ha, List.find?, decide_eq_false ha]
      exact ih h2

theorem find?_map_set_other (d : PyDict) (k0 k : String) (v : Option String)
    (hne : k0 ≠ k) :
    (d.map (fun kv => if kv.1 = k0 then (k0, v) else kv)).find? (fun kv => kv.1 = k)
      = d.find? (fun kv => kv.1 = k) := by
  induction d with
  | nil => rfl
  | cons a rest ih =>
    by_cases ha : a.1 = k0
    · have h2 : decide (a.1 = k) = false := decide_eq_false (by rw [ha]; exact hne)
      simp only [List.map_cons, if_pos ha, List.find?, decide_eq_false hne, h2]
      exact ih
    · simp only [List.map_cons, if_neg ha, List.find?]
      cases hk : decide (a.1 = k) with
      | true => rfl
      | false => exact ih

theorem find?_append_single_no (d : PyDict) (x : String × Option String)
    (p : String × Option String → Bool) (hx : p x = false) :
    (d ++ [x]).find? p = d.find? p := by
  induction d with
  | nil => simp [List.find?, hx]
  | cons a rest ih =>
    simp only [List.cons_append, List.find?]
    cases hpa : p a with
    | true => rfl
    | false => exact ih

theorem find?_append_key (d : PyDict) (k : String) (v : Option String)
    (h : d.any (fun kv => kv.1 = k) = false) :
    (d ++ [(k, v)]).find? (fun kv => kv.1 = k) = some (k, v) := by
  induction d with
  | nil => simp [List.find?]
  | cons a rest ih =>
    simp only [List.any_cons, Bool.or_eq_false_iff] at h
    simp only [List.cons_append, List.find?, h.1]
    exact ih h.2

theorem dict_get_set_self (d : PyDict) (k : String) (v : Option String) :
    dict_get (dict_set d k v) k = some v := by
  unfold dict_set dict_get
  by_cases h : d.any (fun kv => kv.1 = k) = true
  · rw [if_pos h, find?_map_set_self d k v h]
    rfl
  · rw [if_neg h]
    have hf : d.any (fun kv => kv.1 = k) = false := by
      cases hb : d.any (fun kv => kv.1 = k) with
      | true => exact absurd hb h
      | false => rfl
    rw [find?_append_key d k v hf]
    rfl

theorem dict_get_set_other (d : PyDict) (k0 k : String) (v : Option String)
    (hne : k0 ≠ k) : dict_get (dict_set d k0 v) k = dict_get d k := by
  unfold dict_set dict_get
  by_cases h : d.any (fun kv => kv.1 = k0) = true
  · rw [if_pos h, find?_map_set_other d k0 k v hne]
  · rw [if_neg h, find?_append_single_no d (k0, v) _ (by simpa using hne)]

theorem dict_get_assign_not_mem (hs : List String) (vs : List String) (d : PyDict)
    (k : String) (hk : k ∉ hs) :
    dict_get (assign_values hs vs d) k = dict_get d k := by
  induction hs generalizing vs d with
  | nil => rfl
  | cons h t ih =>
    simp only [List.mem_cons, not_or] at hk
    simp only [assign_values]
    rw [ih vs.tail _ hk.2, dict_get_set_other _ _ _ _ (Ne.symm hk.1)]

theorem dict_get_assign_nodup (hs : List String) (vs : List String) (d : PyDict)
    (hnd : hs.Nodup) (j : Nat) (hj : j < hs.length) :
    dict_get (assign_values hs vs d) (hs.get ⟨j, hj⟩) = some (vs[j]?) := by
  induction hs generalizing vs d j with
  | nil => simp at hj
  | cons h t ih =>
    simp only [List.nodup_cons] at hnd
    cases j with
    | zero =>
      simp only [List.get, assign_values]
      rw [dict_get_assign_not_mem _ _ _ _ hnd.1, dict_get_set_self]
      cases vs <;> simp
    | succ j0 =>
      simp only [List.get, assign_values]
      have hj0 : j0 < t.length := by simpa using hj
      rw [ih vs.tail _ hnd.2 j0 hj0]
      cases vs with
      | nil => simp
      | cons v vt => simp


theorem build_dispatch_and (cat : List String) (kvs : List (String × JVal)) (g : JVal)
    (h : jlookup kvs "andGroup" = some g) :
    build_filter_expr cat (.jobj kvs)
      = (match group_expressions g with
         | some xs => (build_expr_list cat xs).map .and_group
         | none => none) := by
  rw [build_filter_expr.eq_def]
  split
  next g2 heq =>
    injection heq with hk
    subst hk
    split
    next g3 heq2 =>
      rw [h] at heq2
      injection heq2 with hg
      subst hg
      split
      next xs heq3 => rw [heq3]
      next heq3 => rw [heq3]
    next heq2 => rw [h] at heq2; cases heq2
  next heq => exact (heq kvs rfl).elim

theorem build_dispatch_or (cat : List String) (kvs : List (String × JVal)) (g : JVal)
    (h1 : jlookup kvs "andGroup" = none) (h2 : jlookup kvs "orGroup" = some g) :
    build_filter_expr cat (.jobj kvs)
      = (match group_expressions g with
         | some xs => (build_expr_list cat xs).map .or_group
         | none => none) := by
  rw [build_filter_expr.eq_def]
  split
  next g2 heq =>
    injection heq with hk
    subst hk
    split
    next g3 heq2 => rw [h1] at heq2; cases heq2
    next heq2 =>
      split
      next g3 heq3 =>
        rw [h2] at heq3
        injection heq3 with hg
        subst hg
        split
        next xs heq4 => rw [heq4]
        next heq4 => rw [heq4]
      next heq3 => rw [h2] at heq3; cases heq3
  next heq => exact (heq kvs rfl).elim

theorem build_dispatch_not (cat : List String) (kvs : List (String × JVal)) (sub : JVal)
    (h1 : jlookup kvs "andGroup" = none) (h2 : jlookup kvs "orGroup" = none)
    (h3 : jlookup kvs "notExpression" = some sub) :
    build_filter_expr cat (.jobj kvs)
      = (build_filter_expr cat sub).map .not_expression := by
  rw [build_filter_expr.eq_def]
  split
  next g2 heq =>
    injection heq with hk
    subst hk
    split
    next g3 heq2 => rw [h1] at heq2; cases heq2
    next heq2 =>
      split
      next g3 heq3 => rw [h2] at heq3; cases heq3
      next heq3 =>
        split
        next sub2 heq4 =>
          rw [h3] at heq4
          injection heq4 with hs
          subst hs
          rfl
        next heq4 => rw [h3] at heq4; cases heq4
  next heq => exact (heq kvs rfl).elim

theorem build_dispatch_leaf (cat : List String) (kvs : List (String × JVal)) (fv : JVal)
    (h1 : jlookup kvs "andGroup" = none) (h2 : jlookup kvs "orGroup" = none)
    (h3 : jlookup kvs "notExpression" = none) (h4 : jlookup kvs "filter" = some fv) :
    build_filter_expr cat (.jobj kvs) = parse_leaf cat fv := by
  rw [build_filter_expr.eq_def]
  split
  next g2 heq =>
    injection heq with hk
    subst hk
    split
    next g3 heq2 => rw [h1] at heq2; cases heq2
    next heq2 =>
      split
      next g3 heq3 => rw [h2] at heq3; cases heq3
      next heq3 =>
        split
        next sub2 heq4 => rw [h3] at heq4; cases heq4
        next heq4 => rw [h4]
  next heq => exact (heq kvs rfl).elim

/-- C7: for every backend tabular response whose header names do not
collide, the row flattener maps `header[i]` to `value[i]` for each
index within bounds of that row's value list, maps `header[i]` to null
(`some none`) for every index beyond the value list's length, and the
output has one dict per input row in input order (entry `i` of the
output is built from entry `i` of the input; nothing is deduplicated
or sorted). -/
theorem ga4_C7 (resp : RunReportResponse)
    (hnd : (resp.dimension_headers ++ resp.metric_headers).Nodup) :
    (flatten_response resp).length = resp.rows.length ∧
    ∀ i (hi : i < resp.rows.length) (hi2 : i < (flatten_response resp).length),
      (∀ j (hj : j < resp.dimension_headers.length),
        dict_get ((flatten_response resp).get ⟨i, hi2⟩)
            (resp.dimension_headers.get ⟨j, hj⟩)
          = some ((resp.rows.get ⟨i, hi⟩).dimension_values[j]?)) ∧
      (∀ j (hj : j < resp.metric_headers.length),
        dict_get ((flatten_response resp).get ⟨i, hi2⟩)
            (resp.metric_headers.get ⟨j, hj⟩)
          = some ((resp.rows.get ⟨i, hi⟩).metric_values[j]?)) := by
  rw [List.nodup_append] at hnd
  obtain ⟨hdh, hmh, hdisj⟩ := hnd
  refine ⟨by simp [flatten_response], ?_⟩
  intro i hi hi2
  have hout : (flatten_response resp).get ⟨i, hi2⟩
      = flatten_row resp.dimension_headers resp.metric_headers (resp.rows.get ⟨i, hi⟩) := by
    simp [flatten_response]
  rw [hout]
  unfold flatten_row
  constructor
  · intro j hj
    have hmem : resp.dimension_headers.get ⟨j, hj⟩ ∉ resp.metric_headers := by
      intro hin
      exact hdisj (List.get_mem _ _ _) hin
    rw [dict_get_assign_not_mem _ _ _ _ hmem]
    exact dict_get_assign_nodup _ _ _ hdh j hj
  · intro j hj
    exact dict_get_assign_nodup _ _ _ hmh j hj

/-- C7 witness: headers `["date"]` / `["totalUsers"]`, two rows, the
second row has no metric values, so its `totalUsers` entry is null. -/
theorem ga4_C7_witness :
    dict_get ((flatten_response ⟨["date"], ["totalUsers"],
        [⟨["20240101"], ["5"]⟩, ⟨["20240102"], []⟩]⟩).get ⟨1, by decide⟩)
      "totalUsers" = some none := by
  have h := ga4_C7 ⟨["date"], ["totalUsers"],
      [⟨["20240101"], ["5"]⟩, ⟨["20240102"], []⟩]⟩ (by decide)
  have h2 := (h.2 1 (by decide) (by decide)).2 0 (by decide)
  simpa using h2

/-- C8: when a metric header shares its name with a dimension header,
the flattened row maps that name to the metric value — dimensions are
written first, then metrics, so the metric entry overwrites the
dimension entry in the shared key space. -/
theorem ga4_C8 (resp : RunReportResponse) (hm : resp.metric_headers.Nodup)
    (i : Nat) (hi : i < resp.rows.length)
    (k : Nat) (hk : k < resp.metric_headers.length)
    (hshared : resp.metric_headers.get ⟨k, hk⟩ ∈ resp.dimension_headers) :
    dict_get (flatten_row resp.dimension_headers resp.metric_headers
        (resp.rows.get ⟨i, hi⟩)) (resp.metric_headers.get ⟨k, hk⟩)
      = some ((resp.rows.get ⟨i, hi⟩).metric_values[k]?) := by
  unfold flatten_row
  exact dict_get_assign_nodup _ _ _ hm k hk

/-- C8 witness: dimension and metric header both named `date`; the
flattened row holds the metric value `42`, not the dimension value. -/
theorem ga4_C8_witness :
    dict_get (flatten_row ["date"] ["date"] ⟨["20240101"], ["42"]⟩) "date"
      = some (some "42") := by
  have h := ga4_C8 ⟨["date"], ["date"], [⟨["20240101"], ["42"]⟩]⟩
    (by decide) 0 (by decide) 0 (by decide) (by decide)
  simpa using h

theorem map_id_of_mem {α : Type} (f : α → α) :
    ∀ (l : List α), (∀ a ∈ l, f a = a) → l.map f = l := by
  intro l
  induction l with
  | nil => intro _; rfl
  | cons a t ih =>
    intro h
    simp only [List.map_cons]
    rw [h a (List.mem_cons_self a t), ih (fun b hb => h b (List.mem_cons_of_mem a hb))]

/-- The argument shapes of claim C3: an empty string, an empty list,
or a list of strings that are empty after stripping. -/
def empty_field_arg (a : FieldArg) : Prop :=
  a = .ofStr "" ∨ a = .ofList [] ∨
  ∃ ws : List String, a = .ofList (ws.map .jstr) ∧ ∀ s ∈ ws, py_strip s = ""

theorem normalize_empty {a : FieldArg} (h : empty_field_arg a) :
    normalize_fields a = [] := by
  rcases h with h | h | h
  · subst h; rfl
  · subst h; rfl
  · obtain ⟨ws, ha, hws⟩ := h
    subst ha
    unfold normalize_fields parse_field_arg
    rw [List.filter_eq_nil_iff]
    intro a hmem
    simp only [List.map_map, List.mem_map, Function.comp] at hmem
    obtain ⟨s, hs, hval⟩ := hmem
    rw [← hval]
    simp [pyStr, hws s hs]

/-- C3: with a valid property id, normalizing a dimensions (or
metrics) argument that is an empty string, an empty list, or a list of
only-whitespace strings makes `get_ga4_data` return the corresponding
structured empty-list error instead of proceeding. -/
theorem ga4_C3 (pm : Option PropertyManager) (backend : Backend) (pid : String)
    (dims mets : FieldArg) (d1 d2 : String) (df : Option JVal)
    (hpid : pid ≠ "") (hpm : prop_check pm pid = none) :
    (empty_field_arg dims →
      get_ga4_data pm backend pid dims mets d1 d2 df
        = .error "Dimensions list cannot be empty after parsing.") ∧
    ((normalize_fields dims).isEmpty = false → empty_field_arg mets →
      get_ga4_data pm backend pid dims mets d1 d2 df
        = .error "Metrics list cannot be empty after parsing.") := by
  constructor
  · intro hd
    unfold get_ga4_data
    rw [if_neg hpid, hpm]
    simp [normalize_empty hd]
  · intro hd hm
    unfold get_ga4_data
    rw [if_neg hpid, hpm]
    simp [hd, normalize_empty hm]

/-- C3 witness: an empty dimensions string, and a metrics list holding
only a whitespace string, each produce the matching error. -/
theorem ga4_C3_witness :
    get_ga4_data none ⟨fun _ => Except.error "x"⟩ "123456" (.ofStr "")
        (.ofList [.jstr "totalUsers"]) "7daysAgo" "yesterday" none
      = .error "Dimensions list cannot be empty after parsing." ∧
    get_ga4_data none ⟨fun _ => Except.error "x"⟩ "123456" (.ofList [.jstr "date"])
        (.ofList [.jstr "   "]) "7daysAgo" "yesterday" none
      = .error "Metrics list cannot be empty after parsing." := by
  constructor
  · exact (ga4_C3 none ⟨fun _ => Except.error "x"⟩ "123456" (.ofStr "")
      (.ofList [.jstr "totalUsers"]) "7daysAgo" "yesterday" none
      (by decide) rfl).1 (Or.inl rfl)
  · exact (ga4_C3 none ⟨fun _ => Except.error "x"⟩ "123456" (.ofList [.jstr "date"])
      (.ofList [.jstr "   "]) "7daysAgo" "yesterday" none
      (by decide) rfl).2 (by decide)
      (Or.inr (Or.inr ⟨["   "], rfl, by decide⟩))

/-- C2 counterexample: the element contents `["null"]` expressed as a
native sequence normalize to `["null"]`, but expressed as the
comma-separated string `"null"` they normalize to `["None"]` — the
string first parses as the JSON scalar `null`, which `str()` renders
as `"None"` — so the three encodings do not always agree. -/
theorem ga4_C2_counterexample :
    normalize_fields (.ofList [.jstr "null"]) = ["null"] ∧
    normalize_fields (.ofStr "null") = ["None"] := ⟨rfl, rfl⟩

/-- C2 (amended): for element contents that are already stripped, the
native-sequence and JSON-array-string encodings always normalize
identically; the comma-separated encoding agrees as well provided the
comma-joined string is not itself parseable as a JSON document. -/
theorem ga4_C2 (ns : List String) (hfix : ∀ n ∈ ns, py_strip n = n)
    (xs : List JVal) (hx : xs.map (fun d => py_strip (pyStr d)) = ns)
    (s : String) (ys : List JVal) (hj : json_loads s = some (.jarr ys))
    (hy : ys.map (fun d => py_strip (pyStr d)) = ns)
    (c : String) (hc : json_loads c = none)
    (hcs : (py_split_comma c).map py_strip = ns) :
    normalize_fields (.ofList xs) = ns.filter (fun n => !(n = "")) ∧
    normalize_fields (.ofStr s) = ns.filter (fun n => !(n = "")) ∧
    normalize_fields (.ofStr c) = ns.filter (fun n => !(n = "")) := by
  refine ⟨?_, ?_, ?_⟩
  · unfold normalize_fields parse_field_arg
    rw [hx]
  · unfold normalize_fields parse_field_arg
    simp only [hj]
    rw [hy]
  · unfold normalize_fields parse_field_arg
    simp only [hc]
    simp only [List.map_map]
    calc ((py_split_comma c).map (py_strip ∘ pyStr ∘ JVal.jstr ∘ py_strip)).filter
            (fun n => !(n = ""))
        = (((py_split_comma c).map py_strip).map py_strip).filter (fun n => !(n = "")) := by
          rw [← List.map_map]
          rfl
      _ = (ns.map py_strip).filter (fun n => !(n = "")) := by rw [hcs]
      _ = ns.filter (fun n => !(n = "")) := by rw [map_id_of_mem py_strip ns hfix]

/-- C2 witness: `["date", "city"]` as a native list, as a JSON array
string, and as a comma-separated string all normalize to
`["date", "city"]`. -/
theorem ga4_C2_witness :
    normalize_fields (.ofList [.jstr "date", .jstr "city"]) = ["date", "city"] ∧
    normalize_fields (.ofStr "[\"date\", \"city\"]") = ["date", "city"] ∧
    normalize_fields (.ofStr "date, city") = ["date", "city"] := by
  have h := ga4_C2 ["date", "city"] (by decide) [.jstr "date", .jstr "city"] (by decide)
    "[\"date\", \"city\"]" [.jstr "date", .jstr "city"] rfl (by decide)
    "date, city" rfl (by decide)
  exact ⟨h.1.trans (by decide), h.2.1.trans (by decide), h.2.2.trans (by decide)⟩

theorem build_expr_list_length (cat : List String) :
    ∀ (xs : List JVal) (es : List FilterExpression),
      build_expr_list cat xs = some es → es.length = xs.length := by
  intro xs
  induction xs with
  | nil =>
    intro es h
    simp only [build_expr_list] at h
    cases h
    rfl
  | cons e t ih =>
    intro es h
    unfold build_expr_list at h
    cases hbe : build_filter_expr cat e with
    | none => rw [hbe] at h; simp at h
    | some fe =>
      rw [hbe] at h
      cases hbl : build_expr_list cat t with
      | none => rw [hbl] at h; simp at h
      | some fes =>
        rw [hbl] at h
        simp only [Option.some.injEq] at h
        rw [← h]
        simp [ih fes hbl]

/-- C4 counterexample: the specification `{"andGroup": {"expressions":
[]}}` compiles successfully to an `And` node with an empty children
sequence — the compiler does return a zero-child group node. -/
theorem ga4_C4_counterexample :
    build_filter_expr ga4_valid_dimensions
        (.jobj [("andGroup", .jobj [("expressions", .jarr [])])])
      = some (.and_group []) := by
  simp [build_filter_expr, build_expr_list, jlookup, group_expressions]

/-- C4 (amended): an `And`/`Or` node produced by the compiler has
exactly one child per element of the input `expressions` list (all of
which must compile); in particular an empty `expressions` list yields
a node with zero children rather than a rejection. -/
theorem ga4_C4 (cat : List String) :
    (∀ (kvs : List (String × JVal)) (g : JVal) (xs : List JVal)
        (es : List FilterExpression),
      jlookup kvs "andGroup" = some g → group_expressions g = some xs →
      build_expr_list cat xs = some es →
      build_filter_expr cat (.jobj kvs) = some (.and_group es) ∧ es.length = xs.length) ∧
    (∀ (kvs : List (String × JVal)) (g : JVal) (xs : List JVal)
        (es : List FilterExpression),
      jlookup kvs "andGroup" = none → jlookup kvs "orGroup" = some g →
      group_expressions g = some xs →
      build_expr_list cat xs = some es →
      build_filter_expr cat (.jobj kvs) = some (.or_group es) ∧ es.length = xs.length) := by
  constructor
  · intro kvs g xs es h1 h2 h3
    refine ⟨?_, build_expr_list_length cat xs es h3⟩
    rw [build_dispatch_and cat kvs g h1]
    simp only [h2, h3]
    rfl
  · intro kvs g xs es h1 h2 h3 h4
    refine ⟨?_, build_expr_list_length cat xs es h4⟩
    rw [build_dispatch_or cat kvs g h1 h2]
    simp only [h3, h4]
    rfl

/-- C4 witness for the amended claim: a one-leaf `andGroup` compiles
to an `And` with exactly one child. -/
theorem ga4_C4_witness :
    build_filter_expr ["country"] (.jobj [("andGroup", .jobj [("expressions", .jarr
        [.jobj [("filter", .jobj [("fieldName", .jstr "country"),
                                  ("stringFilter", .jobj [])])]])])])
      = some (.and_group [.filter ⟨"country", .string_filter ⟨"", .EXACT, false⟩⟩]) := by
  exact ((ga4_C4 ["country"]).1
    [("andGroup", .jobj [("expressions", .jarr
        [.jobj [("filter", .jobj [("fieldName", .jstr "country"),
                                  ("stringFilter", .jobj [])])]])])]
    (.jobj [("expressions", .jarr
        [.jobj [("filter", .jobj [("fieldName", .jstr "country"),
                                  ("stringFilter", .jobj [])])]])])
    [.jobj [("filter", .jobj [("fieldName", .jstr "country"),
                              ("stringFilter", .jobj [])])]]
    [.filter ⟨"country", .string_filter ⟨"", .EXACT, false⟩⟩]
    rfl rfl
    (by simp [build_expr_list, build_filter_expr, jlookup, parse_leaf, py_truthy,
              parse_string_filter, parse_match_type, get_str_default, get_bool_default])).1

/-- A leaf filter specification whose `stringFilter` body is `sfkvs`. -/
def string_leaf_spec (field : String) (sfkvs : List (String × JVal)) : JVal :=
  .jobj [("filter", .jobj [("fieldName", .jstr field), ("stringFilter", .jobj sfkvs)])]

/-- The compiled leaf expected for a `stringFilter`. -/
def string_leaf_result (field v : String) (mt : MatchType) (cs : Bool) :
    Option FilterExpression :=
  some (.filter ⟨field, .string_filter ⟨v, mt, cs⟩⟩)

/-- C5: for a leaf whose `fieldName` is a non-empty catalog member, a
`stringFilter` with `matchType` absent or unrecognized compiles with
EXACT matching; an absent `value` defaults to the empty string; an
absent `caseSensitive` defaults to false. -/
theorem ga4_C5 (cat : List String) (field : String) (hf : field ∈ cat)
    (hfe : field ≠ "") (v : String) (cs : Bool) (s : String)
    (hs : match_type_map s = none) :
    build_filter_expr cat
        (string_leaf_spec field [("value", .jstr v), ("caseSensitive", .jbool cs)])
      = string_leaf_result field v .EXACT cs ∧
    build_filter_expr cat (string_leaf_spec field
        [("matchType", .jstr s), ("value", .jstr v), ("caseSensitive", .jbool cs)])
      = string_leaf_result field v .EXACT cs ∧
    build_filter_expr cat (string_leaf_spec field [])
      = string_leaf_result field "" .EXACT false ∧
    build_filter_expr cat (string_leaf_spec field [("value", .jstr v)])
      = string_leaf_result field v .EXACT false ∧
    build_filter_expr cat (string_leaf_spec field [("caseSensitive", .jbool cs)])
      = string_leaf_result field "" .EXACT cs := by
  refine ⟨?_, ?_, ?_, ?_, ?_⟩ <;>
  · unfold string_leaf_spec
    rw [show ∀ fv, build_filter_expr cat (.jobj [("filter", fv)]) = parse_leaf cat fv from
      fun fv => build_dispatch_leaf cat [("filter", fv)] fv rfl rfl rfl rfl]
    simp [parse_leaf, jlookup, py_truthy, hfe, hf, parse_string_filter, parse_match_type,
          get_str_default, get_bool_default, hs, string_leaf_result]

/-- C5 witness: a catalog field with an empty `stringFilter` body
yields EXACT matching, empty value, and `caseSensitive = false`; the
theorem is applied with the unrecognized name `STARTS_WITH`. -/
theorem ga4_C5_witness :
    build_filter_expr ga4_valid_dimensions (string_leaf_spec "country" [])
      = string_leaf_result "country" "" .EXACT false := by
  exact (ga4_C5 ga4_valid_dimensions "country" (by decide) (by decide)
    "US" true "STARTS_WITH" (by decide)).2.2.1

/-- C10: the compiler dispatches on a fixed precedence order —
`andGroup` before `orGroup` before `notExpression` before `filter` —
a node holding several recognized keys is processed exactly as if only
the highest-precedence one were present (never rejected as such), and
a leaf holding both `stringFilter` and `inListFilter` compiles its
`stringFilter` while the `inListFilter` is ignored. -/
theorem ga4_C10 (cat : List String) :
    (∀ (g : JVal) (rest : List (String × JVal)),
      build_filter_expr cat (.jobj (("andGroup", g) :: rest))
        = build_filter_expr cat (.jobj [("andGroup", g)])) ∧
    (∀ (kvs : List (String × JVal)) (g : JVal),
      jlookup kvs "andGroup" = none → jlookup kvs "orGroup" = some g →
      build_filter_expr cat (.jobj kvs) = build_filter_expr cat (.jobj [("orGroup", g)])) ∧
    (∀ (kvs : List (String × JVal)) (sub : JVal),
      jlookup kvs "andGroup" = none → jlookup kvs "orGroup" = none →
      jlookup kvs "notExpression" = some sub →
      build_filter_expr cat (.jobj kvs)
        = build_filter_expr cat (.jobj [("notExpression", sub)])) ∧
    (∀ (kvs : List (String × JVal)) (fv : JVal),
      jlookup kvs "andGroup" = none → jlookup kvs "orGroup" = none →
      jlookup kvs "notExpression" = none → jlookup kvs "filter" = some fv →
      build_filter_expr cat (.jobj kvs) = parse_leaf cat fv) ∧
    (∀ (field : String) (sfv ilv : JVal),
      build_filter_expr cat (.jobj [("filter", .jobj [("fieldName", .jstr field),
          ("stringFilter", sfv), ("inListFilter", ilv)])])
        = build_filter_expr cat (.jobj [("filter", .jobj [("fieldName", .jstr field),
          ("stringFilter", sfv)])])) := by
  refine ⟨?_, ?_, ?_, ?_, ?_⟩
  · intro g rest
    rw [build_dispatch_and cat (("andGroup", g) :: rest) g rfl,
        build_dispatch_and cat [("andGroup", g)] g rfl]
  · intro kvs g h1 h2
    rw [build_dispatch_or cat kvs g h1 h2,
        build_dispatch_or cat [("orGroup", g)] g rfl rfl]
  · intro kvs sub h1 h2 h3
    rw [build_dispatch_not cat kvs sub h1 h2 h3,
        build_dispatch_not cat [("notExpression", sub)] sub rfl rfl rfl]
  · intro kvs fv h1 h2 h3 h4
    rw [build_dispatch_leaf cat kvs fv h1 h2 h3 h4]
  · intro field sfv ilv
    rw [build_dispatch_leaf cat
          [("filter", .jobj [("fieldName", .jstr field), ("stringFilter", sfv),
            ("inListFilter", ilv)])]
          (.jobj [("fieldName", .jstr field), ("stringFilter", sfv), ("inListFilter", ilv)])
          rfl rfl rfl rfl,
        build_dispatch_leaf cat
          [("filter", .jobj [("fieldName", .jstr field), ("stringFilter", sfv)])]
          (.jobj [("fieldName", .jstr field), ("stringFilter", sfv)])
          rfl rfl rfl rfl]
    simp [parse_leaf, jlookup]

/-- C10 witness: an `andGroup` node with an extra `filter` key behaves
as the pure `andGroup` node, and a leaf with both matcher keys equals
the leaf with only its `stringFilter`. -/
theorem ga4_C10_witness :
    build_filter_expr ["country"] (.jobj [("andGroup", .jobj [("expressions", .jarr [])]),
        ("filter", .jnull)])
      = build_filter_expr ["country"] (.jobj [("andGroup", .jobj [("expressions", .jarr [])])]) ∧
    build_filter_expr ["country"] (.jobj [("filter", .jobj [("fieldName", .jstr "country"),
        ("stringFilter", .jobj []), ("inListFilter", .jobj [("values", .jarr [.jstr "US"])])])])
      = build_filter_expr ["country"] (.jobj [("filter", .jobj [("fieldName", .jstr "country"),
        ("stringFilter", .jobj [])])]) := by
  exact ⟨(ga4_C10 ["country"]).1 (.jobj [("expressions", .jarr [])]) [("filter", .jnull)],
         (ga4_C10 ["country"]).2.2.2.2 "country" (.jobj [])
           (.jobj [("values", .jarr [.jstr "US"])])⟩

theorem build_dispatch_none (cat : List String) (kvs : List (String × JVal))
    (h1 : jlookup kvs "andGroup" = none) (h2 : jlookup kvs "orGroup" = none)
    (h3 : jlookup kvs "notExpression" = none) (h4 : jlookup kvs "filter" = none) :
    build_filter_expr cat (.jobj kvs) = none := by
  rw [build_filter_expr.eq_def]
  split
  next g2 heq =>
    injection heq with hk
    subst hk
    split
    next g3 heq2 => rw [h1] at heq2; cases heq2
    next heq2 =>
      split
      next g3 heq3 => rw [h2] at heq3; cases heq3
      next heq3 =>
        split
        next sub2 heq4 => rw [h3] at heq4; cases heq4
        next heq4 => rw [h4]
  next heq => exact (heq kvs rfl).elim

/-- The children relation the compiler actually recurses along: a node
relates to the elements of the `expressions` of its `andGroup` (or, in
its absence, `orGroup`) value, or to its `notExpression` value when
neither group key is present; `SubNode sub parent` means `sub` is
reached from `parent` along zero or more such steps. -/
inductive SubNode : JVal → JVal → Prop where
  | refl (e : JVal) : SubNode e e
  | and_child {p : JVal} {kvs : List (String × JVal)} {g : JVal} {xs : List JVal} {e : JVal} :
      jlookup kvs "andGroup" = some g → group_expressions g = some xs → e ∈ xs →
      SubNode p e → SubNode p (.jobj kvs)
  | or_child {p : JVal} {kvs : List (String × JVal)} {g : JVal} {xs : List JVal} {e : JVal} :
      jlookup kvs "andGroup" = none → jlookup kvs "orGroup" = some g →
      group_expressions g = some xs → e ∈ xs →
      SubNode p e → SubNode p (.jobj kvs)
  | not_child {p : JVal} {kvs : List (String × JVal)} {sub : JVal} :
      jlookup kvs "andGroup" = none → jlookup kvs "orGroup" = none →
      jlookup kvs "notExpression" = some sub →
      SubNode p sub → SubNode p (.jobj kvs)

theorem build_expr_list_none (cat : List String) {e : JVal} :
    ∀ {xs : List JVal}, e ∈ xs → build_filter_expr cat e = none →
      build_expr_list cat xs = none := by
  intro xs
  induction xs with
  | nil => intro h; cases h
  | cons x t ih =>
    intro hmem hn
    unfold build_expr_list
    rcases List.mem_cons.mp hmem with h | h
    · subst h
      rw [hn]
    · cases hbx : build_filter_expr cat x with
      | none => rfl
      | some fe =>
        rw [ih h hn]

theorem build_subnode_none (cat : List String) (sub parent : JVal)
    (hsn : SubNode sub parent) :
    build_filter_expr cat sub = none → build_filter_expr cat parent = none := by
  induction hsn with
  | refl => exact fun hn => hn
  | and_child hA hG hm _ ih =>
    intro hn
    rw [build_dispatch_and _ _ _ hA]
    simp only [hG]
    rw [build_expr_list_none cat hm (ih hn)]
    rfl
  | or_child hA hO hG hm _ ih =>
    intro hn
    rw [build_dispatch_or _ _ _ hA hO]
    simp only [hG]
    rw [build_expr_list_none cat hm (ih hn)]
    rfl
  | not_child hA hO hN _ ih =>
    intro hn
    rw [build_dispatch_not _ _ _ hA hO hN]
    rw [ih hn]
    rfl

/-- Shared shape of the failed-filter paths of `get_ga4_data`: a
truthy dict filter whose compilation fails makes the whole call return
the single invalid-filter error. -/
theorem get_ga4_data_invalid_filter (pm : Option PropertyManager) (backend : Backend)
    (pid : String) (dims mets : FieldArg) (d1 d2 : String)
    (kvs : List (String × JVal))
    (hpid : pid ≠ "") (hpm : prop_check pm pid = none)
    (hd : (normalize_fields dims).isEmpty = false)
    (hm : (normalize_fields mets).isEmpty = false)
    (hke : kvs.isEmpty = false)
    (hbuild : build_filter_expr ga4_valid_dimensions (.jobj kvs) = none) :
    get_ga4_data pm backend pid dims mets d1 d2 (some (.jobj kvs))
      = .error "Invalid or unsupported dimension_filter structure, or invalid dimension name." := by
  unfold get_ga4_data
  rw [if_neg hpid, hpm]
  simp only [hd, hm, py_truthy, hke, hbuild, Bool.false_eq_true, if_false,
    Bool.not_false, if_true]

/-- C1: failure at any recursion depth aborts the whole compilation —
if any node reached along the compiler's own recursion fails (for
instance a leaf whose `fieldName` is not in the catalog, regardless of
valid siblings), the compiler returns no tree at all, and the caller
of `get_ga4_data` receives the single invalid-filter validation error
rather than any partially built tree. -/
theorem ga4_C1 :
    (∀ (cat : List String) (sub parent : JVal), SubNode sub parent →
      build_filter_expr cat sub = none → build_filter_expr cat parent = none) ∧
    (∀ (pm : Option PropertyManager) (backend : Backend) (pid : String)
        (dims mets : FieldArg) (d1 d2 : String) (sub : JVal)
        (kvs : List (String × JVal)),
      SubNode sub (.jobj kvs) →
      build_filter_expr ga4_valid_dimensions sub = none →
      kvs.isEmpty = false → pid ≠ "" → prop_check pm pid = none →
      (normalize_fields dims).isEmpty = false →
      (normalize_fields mets).isEmpty = false →
      get_ga4_data pm backend pid dims mets d1 d2 (some (.jobj kvs))
        = .error "Invalid or unsupported dimension_filter structure, or invalid dimension name.") := by
  constructor
  · exact fun cat sub parent hsn => build_subnode_none cat sub parent hsn
  · intro pm backend pid dims mets d1 d2 sub kvs hsn hbn hke hpid hpm hd hm
    exact get_ga4_data_invalid_filter pm backend pid dims mets d1 d2 kvs
      hpid hpm hd hm hke
      (build_subnode_none ga4_valid_dimensions sub (.jobj kvs) hsn hbn)

/-- C1 witness: an `andGroup` with one valid leaf (`country`) and one
leaf naming the unknown dimension `noSuchDim` compiles to nothing, and
the query returns the single validation error. -/
theorem ga4_C1_witness :
    get_ga4_data none ⟨fun _ => Except.error "x"⟩ "123456"
        (.ofList [.jstr "date"]) (.ofList [.jstr "totalUsers"]) "7daysAgo" "yesterday"
        (some (.jobj [("andGroup", .jobj [("expressions", .jarr
          [.jobj [("filter", .jobj [("fieldName", .jstr "country"),
                                    ("stringFilter", .jobj [])])],
           .jobj [("filter", .jobj [("fieldName", .jstr "noSuchDim"),
                                    ("stringFilter", .jobj [])])]])])]))
      = .error "Invalid or unsupported dimension_filter structure, or invalid dimension name." := by
  refine ga4_C1.2 none ⟨fun _ => Except.error "x"⟩ "123456"
    (.ofList [.jstr "date"]) (.ofList [.jstr "totalUsers"]) "7daysAgo" "yesterday"
    (.jobj [("filter", .jobj [("fieldName", .jstr "noSuchDim"), ("stringFilter", .jobj [])])])
    _ ?_ ?_ rfl (by decide) rfl rfl rfl
  · exact SubNode.and_child rfl rfl
      (List.Mem.tail _ (List.Mem.head _))
      (SubNode.refl _)
  · simp [build_filter_expr, parse_leaf, jlookup, py_truthy,
      show ("noSuchDim" ∈ ga4_valid_dimensions) = False by
        simp only [eq_iff_iff, iff_false]
        decide]

/-- C6 counterexample: supplying the literally empty specification
`{}` does not fail — `if dimension_filter:` treats the empty dict as
falsy, filter processing is skipped entirely, and the query executes
against the backend with no filter (the chosen backend only answers
requests whose `dimension_filter` is absent). -/
theorem ga4_C6_counterexample :
    get_ga4_data none
        ⟨fun req => match req.dimension_filter with
          | none => Except.ok ⟨["date"], ["totalUsers"], [⟨["20240101"], ["5"]⟩]⟩
          | some _ => Except.error "unexpected filter"⟩
        "123456" (.ofList [.jstr "date"]) (.ofList [.jstr "totalUsers"])
        "7daysAgo" "yesterday" (some (.jobj []))
      = .rows (flatten_response ⟨["date"], ["totalUsers"], [⟨["20240101"], ["5"]⟩]⟩) := rfl

/-- C6 (amended): a supplied top-level specification that is a
non-empty dict containing no recognized key fails with the
invalid-filter validation error; the literally empty dict (and any
other falsy filter value) is instead treated as no filter at all and
the query executes unfiltered. -/
theorem ga4_C6 (pm : Option PropertyManager) (backend : Backend) (pid : String)
    (dims mets : FieldArg) (d1 d2 : String) (kvs : List (String × JVal))
    (hpid : pid ≠ "") (hpm : prop_check pm pid = none)
    (hd : (normalize_fields dims).isEmpty = false)
    (hm : (normalize_fields mets).isEmpty = false)
    (hke : kvs.isEmpty = false)
    (h1 : jlookup kvs "andGroup" = none) (h2 : jlookup kvs "orGroup" = none)
    (h3 : jlookup kvs "notExpression" = none) (h4 : jlookup kvs "filter" = none) :
    get_ga4_data pm backend pid dims mets d1 d2 (some (.jobj kvs))
      = .error "Invalid or unsupported dimension_filter structure, or invalid dimension name." :=
  get_ga4_data_invalid_filter pm backend pid dims mets d1 d2 kvs hpid hpm hd hm hke
    (build_dispatch_none ga4_valid_dimensions kvs h1 h2 h3 h4)

/-- C6 witness for the amended claim: a non-empty dict with only an
unrecognized key fails with the validation error. -/
theorem ga4_C6_witness :
    get_ga4_data none ⟨fun _ => Except.error "x"⟩ "123456"
        (.ofList [.jstr "date"]) (.ofList [.jstr "totalUsers"]) "7daysAgo" "yesterday"
        (some (.jobj [("bogusKey", .jnull)]))
      = .error "Invalid or unsupported dimension_filter structure, or invalid dimension name." :=
  ga4_C6 none ⟨fun _ => Except.error "x"⟩ "123456"
    (.ofList [.jstr "date"]) (.ofList [.jstr "totalUsers"]) "7daysAgo" "yesterday"
    [("bogusKey", .jnull)] (by decide) rfl rfl rfl rfl rfl rfl rfl rfl

/-- C9: every outcome of `get_ga4_data` is either a single structured
error value, or the complete flattening of one successful backend
response — no fault escapes and no partial result accompanies an
error. -/
theorem ga4_C9 (pm : Option PropertyManager) (backend : Backend) (pid : String)
    (dims mets : FieldArg) (d1 d2 : String) (df : Option JVal) :
    (∃ e, get_ga4_data pm backend pid dims mets d1 d2 df = .error e) ∨
    (∃ req resp, backend.run_report req = Except.ok resp ∧
      get_ga4_data pm backend pid dims mets d1 d2 df
        = .rows (flatten_response resp)) := by
  cases hres : get_ga4_data pm backend pid dims mets d1 d2 df with
  | error e => exact Or.inl ⟨e, rfl⟩
  | rows r =>
    right
    unfold get_ga4_data at hres
    repeat' (first | (split at hres) | (dsimp only at hres))
    all_goals
      first
      | exact ⟨_, _, by assumption, hres.symm⟩
      | cases hres
